import Mathlib

/-!
Verification of the PowerLog battery-manager core: the battery lifecycle and
inventory state machine (consumption, recharge, history ledger, upsert).

The definitions below are a shallow embedding of the TypeScript/JavaScript
source.  All counters are modelled as `Nat` (the spec's data model declares
them as nonnegative counts); the JavaScript idiom `x || y` on such counts is
`if x = 0 then y else x`, and on optional values it falls through both
`undefined` and the falsy value.  JavaScript `undefined` for an optional
numeric/string field is modelled as `none`; an `undefined` charging history
is conflated with the empty list (the API layer always materialises it as a
list).  Timestamps (`new Date().toISOString()`) and fresh identifiers
(`generateSafeId()`) are passed in as explicit parameters.
-/

namespace PowerLog

/-- JavaScript `x || y` on a nonnegative count: `0` is falsy. -/
def jsOrNat (x y : Nat) : Nat := if x = 0 then y else x

/-- JavaScript `x || y` where `x` is an optional string: `undefined` and the
empty string are falsy. -/
def jsOrStr (x : Option String) (y : String) : String :=
  match x with
  | none => y
  | some s => if s = "" then y else s

/-- `BatteryCategory` from `types.ts` (string values `Batterie`, `Knopfzelle`,
`Akku` are irrelevant to the state machine). -/
inductive BatteryCategory where
  | PRIMARY
  | BUTTON_CELL
  | RECHARGEABLE
deriving DecidableEq, Repr, BEq

/-- `ChargingEvent` from `types.ts`. -/
structure ChargingEvent where
  id : String
  date : String
  count : Nat
deriving DecidableEq, Repr, BEq

/-- `Battery` from `types.ts`.  `capacityMah` and `lastCharged` are optional
(`undefined` = `none`); `chargeCycles` is read through `|| 0` at every use
site in the source, so `undefined` is conflated with `0`. -/
structure Battery where
  id : String
  name : String
  brand : String
  size : String
  category : BatteryCategory
  quantity : Nat
  totalQuantity : Nat
  minQuantity : Nat
  inUse : Nat
  usageAccumulator : Nat
  capacityMah : Option Nat
  chargeCycles : Nat
  lastCharged : Option String
  chargingHistory : List ChargingEvent
deriving DecidableEq, Repr, BEq

/-- `saveToStorage` (client, `server.js` lines 226-252), restricted to its
state effect on the in-memory battery list: replace-by-id when the id is
already present, append otherwise. -/
def saveToStorage (l : List Battery) (battery : Battery) : List Battery :=
  if l.any (fun b => b.id == battery.id) then
    l.map (fun b => if b.id == battery.id then battery else b)
  else
    l ++ [battery]

/-- The next-state computation of `useBattery` (`server.js` lines 348-361) on
the battery it found.  RECHARGEABLE: decrement `quantity`, increment `inUse`,
advance `usageAccumulator` with rollover at `totalQuantity || 1`; otherwise:
decrement `quantity` and `Math.max(0, (totalQuantity || quantity) - 1)`. -/
def consumeBattery (b : Battery) : Battery :=
  if b.category = BatteryCategory.RECHARGEABLE then
    let nextAccumulator := b.usageAccumulator + 1
    let nextCycles := b.chargeCycles
    if nextAccumulator ≥ jsOrNat b.totalQuantity 1 then
      { b with quantity := b.quantity - 1, inUse := b.inUse + 1,
               usageAccumulator := 0, chargeCycles := nextCycles + 1 }
    else
      { b with quantity := b.quantity - 1, inUse := b.inUse + 1,
               usageAccumulator := nextAccumulator, chargeCycles := nextCycles }
  else
    { b with quantity := b.quantity - 1,
             totalQuantity := jsOrNat b.totalQuantity b.quantity - 1 }

/-- `useBattery` (`server.js` lines 348-361): find by id; no-op when absent or
`quantity <= 0`; otherwise store the consumed battery. -/
def useBattery (l : List Battery) (id : String) : List Battery :=
  match l.find? (fun b => b.id == id) with
  | none => l
  | some b => if b.quantity ≤ 0 then l else saveToStorage l (consumeBattery b)

/-- The next-state computation of `executeCharge` (`server.js` lines 363-385)
on the battery it found: `moveAmount = min(inUse, amount)`, move that many
units back to `quantity`, stamp `lastCharged`, prepend a fresh
`ChargingEvent`. -/
def chargeBattery (b : Battery) (amount : Nat) (now freshId : String) : Battery :=
  let moveAmount := min b.inUse amount
  { b with quantity := b.quantity + moveAmount,
           inUse := b.inUse - moveAmount,
           lastCharged := some now,
           chargingHistory :=
             { id := freshId, date := now, count := moveAmount } :: b.chargingHistory }

/-- `executeCharge` (`server.js` lines 363-385): find by id; no-op when
absent; otherwise store the recharged battery. -/
def executeCharge (l : List Battery) (batteryId : String) (amount : Nat)
    (now freshId : String) : List Battery :=
  match l.find? (fun b => b.id == batteryId) with
  | none => l
  | some b => saveToStorage l (chargeBattery b amount now freshId)

/-- `deleteHistoryEntry` (`server.js` lines 387-393): find by id; no-op when
absent; otherwise filter the event with the given id out of the charging
history and store the result. -/
def deleteHistoryEntry (l : List Battery) (batteryId eventId : String) :
    List Battery :=
  match l.find? (fun b => b.id == batteryId) with
  | none => l
  | some b =>
      saveToStorage l
        { b with chargingHistory :=
            b.chargingHistory.filter (fun e => e.id != eventId) }

/-- The JSON body accepted by `POST /api/batteries` (`server.js` lines
95-115).  Absent JSON fields are `none`; the handler coerces each numeric
field with `Number(x) || 0` (so `undefined` becomes `0`). -/
structure PostPayload where
  id : Option String
  name : Option String
  brand : Option String
  size : Option String
  category : BatteryCategory
  quantity : Option Nat
  totalQuantity : Option Nat
  minQuantity : Option Nat
  inUse : Option Nat
  usageAccumulator : Option Nat
  capacityMah : Option Nat
  chargeCycles : Option Nat
  lastCharged : Option String
  chargingHistory : Option (List ChargingEvent)
deriving DecidableEq, Repr

/-- One row of the `batteries` table: every column is stored (the handler
normalises missing numerics to `0`, missing strings to defaults, and the
history to a JSON-encoded list). -/
structure BatteryRow where
  id : String
  name : String
  brand : String
  size : String
  category : BatteryCategory
  quantity : Nat
  totalQuantity : Nat
  minQuantity : Nat
  inUse : Nat
  usageAccumulator : Nat
  capacityMah : Nat
  chargeCycles : Nat
  lastCharged : String
  chargingHistory : List ChargingEvent
deriving DecidableEq, Repr, BEq

/-- The row written by `POST /api/batteries` for a payload, following the
handler's normalisation (`b.brand || ''`, `b.size || b.name`,
`Number(...) || 0`, `b.lastCharged || ''`, `b.chargingHistory || []`). -/
def rowOfPayload (p : PostPayload) : BatteryRow :=
  { id := p.id.getD ""
    name := p.name.getD ""
    brand := p.brand.getD ""
    size := jsOrStr p.size (p.name.getD "")
    category := p.category
    quantity := p.quantity.getD 0
    totalQuantity := p.totalQuantity.getD 0
    minQuantity := p.minQuantity.getD 0
    inUse := p.inUse.getD 0
    usageAccumulator := p.usageAccumulator.getD 0
    capacityMah := p.capacityMah.getD 0
    chargeCycles := p.chargeCycles.getD 0
    lastCharged := p.lastCharged.getD ""
    chargingHistory := p.chargingHistory.getD [] }

/-- SQLite `REPLACE INTO` on a table whose primary key is `id`: delete any
conflicting row, insert the new one. -/
def replaceInto (db : List BatteryRow) (row : BatteryRow) : List BatteryRow :=
  db.filter (fun r => r.id != row.id) ++ [row]

/-- JavaScript falsiness of an optional string (`!b.id`): `undefined` and the
empty string are falsy. -/
def strFalsy (x : Option String) : Bool :=
  match x with
  | none => true
  | some s => s == ""

/-- `POST /api/batteries` (`server.js` lines 95-115) as a state transformer on
the table: reject (HTTP 400, table unchanged) when `id` or `name` is falsy,
otherwise `REPLACE INTO` the normalised row. -/
def postBattery (db : List BatteryRow) (p : PostPayload) : List BatteryRow :=
  if strFalsy p.id || strFalsy p.name then db else replaceInto db (rowOfPayload p)

/-- The form state feeding `saveBattery` (`server.js` lines 319-340); every
field of the form may be unset. -/
structure FormBattery where
  id : Option String
  name : Option String
  brand : Option String
  size : Option String
  category : Option BatteryCategory
  quantity : Option Nat
  totalQuantity : Option Nat
  minQuantity : Option Nat
  inUse : Option Nat
  usageAccumulator : Option Nat
  capacityMah : Option Nat
  chargeCycles : Option Nat
  lastCharged : Option String
  chargingHistory : Option (List ChargingEvent)
deriving DecidableEq, Repr

/-- The `Battery` object literal built by `saveBattery` (`server.js` lines
319-340).  `freshId` stands for `generateSafeId()` and `nowIso` for
`new Date().toISOString()`.  For a non-RECHARGEABLE category the source sets
`capacityMah`, `lastCharged` to `undefined` and `chargeCycles` to `undefined`
(conflated with `0` in this model); `Number(formBattery.capacityMah)` of an
unset field is `NaN`, conflated with `none`. -/
def buildBattery (f : FormBattery) (freshId nowIso : String) : Battery :=
  let isRechargeable := f.category = some BatteryCategory.RECHARGEABLE
  { id := jsOrStr f.id freshId
    name := jsOrStr f.name "?"
    brand := f.brand.getD ""
    size := jsOrStr f.size (jsOrStr f.name "AA")
    category := f.category.getD BatteryCategory.PRIMARY
    quantity := f.quantity.getD 0
    totalQuantity :=
      if isRechargeable then jsOrNat (f.totalQuantity.getD 0) 1
      else jsOrNat (f.quantity.getD 0) 1
    inUse := if isRechargeable then f.inUse.getD 0 else 0
    minQuantity := f.minQuantity.getD 0
    usageAccumulator := f.usageAccumulator.getD 0
    capacityMah := if isRechargeable then f.capacityMah else none
    chargeCycles := if isRechargeable then f.chargeCycles.getD 0 else 0
    lastCharged := if isRechargeable then some (jsOrStr f.lastCharged nowIso) else none
    chargingHistory := f.chargingHistory.getD [] }

/-! Concrete sample data, used to instantiate the theorems below on the
scenarios the specification lists. -/

/-- The spec scenario battery: RECHARGEABLE, `quantity 5`, `inUse 0`,
`totalQuantity 5`, `usageAccumulator 4`. -/
def sampleAkku : Battery :=
  { id := "a1", name := "Eneloop AA", brand := "Panasonic", size := "AA"
    category := BatteryCategory.RECHARGEABLE
    quantity := 5, totalQuantity := 5, minQuantity := 2, inUse := 0
    usageAccumulator := 4, capacityMah := some 1900, chargeCycles := 0
    lastCharged := none, chargingHistory := [] }

/-- A RECHARGEABLE battery with three units in devices and one logged
recharge. -/
def sampleInUseAkku : Battery :=
  { id := "a2", name := "Eneloop AAA", brand := "Panasonic", size := "AAA"
    category := BatteryCategory.RECHARGEABLE
    quantity := 1, totalQuantity := 4, minQuantity := 1, inUse := 3
    usageAccumulator := 2, capacityMah := some 750, chargeCycles := 7
    lastCharged := some "2026-01-01T00:00:00Z"
    chargingHistory := [{ id := "e1", date := "2026-01-01T00:00:00Z", count := 2 }] }

/-- A PRIMARY battery whose stored `totalQuantity` is `0` (legacy record). -/
def primaryZeroTotal : Battery :=
  { id := "p1", name := "AA Cell", brand := "", size := "AA"
    category := BatteryCategory.PRIMARY
    quantity := 2, totalQuantity := 0, minQuantity := 0, inUse := 0
    usageAccumulator := 0, capacityMah := none, chargeCycles := 0
    lastCharged := none, chargingHistory := [] }

/-- A PRIMARY battery that is out of stock. -/
def emptyPrimary : Battery :=
  { id := "p0", name := "9V Block", brand := "", size := "9V"
    category := BatteryCategory.PRIMARY
    quantity := 0, totalQuantity := 0, minQuantity := 1, inUse := 0
    usageAccumulator := 0, capacityMah := none, chargeCycles := 0
    lastCharged := none, chargingHistory := [] }

/-- A form submission for a PRIMARY battery with `quantity 0`. -/
def zeroQuantityForm : FormBattery :=
  { id := some "f1", name := some "AAA Cell", brand := none, size := none
    category := some BatteryCategory.PRIMARY
    quantity := some 0, totalQuantity := none, minQuantity := none
    inUse := none, usageAccumulator := none, capacityMah := none
    chargeCycles := none, lastCharged := none, chargingHistory := none }

/-! Helper lemmas. -/

/-- `jsOrNat x 1` coincides with `max x 1` on counts. -/
lemma jsOrNat_one_eq_max (x : Nat) : jsOrNat x 1 = max x 1 := by
  unfold jsOrNat
  split <;> omega

/-- Filtering twice with the same predicate filters once. -/
lemma filter_self_idem {α : Type} (p : α → Bool) (l : List α) :
    (l.filter p).filter p = l.filter p := by
  induction l with
  | nil => rfl
  | cons a t ih =>
      by_cases h : p a <;> simp [List.filter_cons, h, ih]

/-- When `useBattery` finds a battery with positive quantity, it stores the
consumed battery. -/
lemma useBattery_found (l : List Battery) (id : String) (b : Battery)
    (hfind : l.find? (fun x => x.id == id) = some b) (hq : 0 < b.quantity) :
    useBattery l id = saveToStorage l (consumeBattery b) := by
  unfold useBattery
  rw [hfind]
  simp only []
  rw [if_neg (by omega)]

/-! Claim theorems. -/

/-- C1: for every RECHARGEABLE battery with `quantity > 0`, `useBattery`
stores a state with `quantity` decreased by 1, `inUse` increased by 1 and
`usageAccumulator` increased by 1, except that when the incremented
accumulator reaches or exceeds `max(totalQuantity, 1)` the accumulator is
reset to `0` and `chargeCycles` is increased by 1 instead; no other field of
the battery changes. -/
theorem useBattery_rechargeable_spec (l : List Battery) (id : String)
    (b : Battery) (hfind : l.find? (fun x => x.id == id) = some b)
    (hcat : b.category = BatteryCategory.RECHARGEABLE)
    (hq : 0 < b.quantity) :
    useBattery l id = saveToStorage l (consumeBattery b) ∧
    (consumeBattery b).quantity + 1 = b.quantity ∧
    (consumeBattery b).inUse = b.inUse + 1 ∧
    (b.usageAccumulator + 1 ≥ max b.totalQuantity 1 →
      (consumeBattery b).usageAccumulator = 0 ∧
      (consumeBattery b).chargeCycles = b.chargeCycles + 1) ∧
    (b.usageAccumulator + 1 < max b.totalQuantity 1 →
      (consumeBattery b).usageAccumulator = b.usageAccumulator + 1 ∧
      (consumeBattery b).chargeCycles = b.chargeCycles) ∧
    (consumeBattery b).totalQuantity = b.totalQuantity ∧
    (consumeBattery b).minQuantity = b.minQuantity ∧
    (consumeBattery b).capacityMah = b.capacityMah ∧
    (consumeBattery b).lastCharged = b.lastCharged ∧
    (consumeBattery b).chargingHistory = b.chargingHistory ∧
    (consumeBattery b).id = b.id ∧
    (consumeBattery b).name = b.name ∧
    (consumeBattery b).brand = b.brand ∧
    (consumeBattery b).size = b.size ∧
    (consumeBattery b).category = b.category := by
  refine ⟨useBattery_found l id b hfind hq, ?_⟩
  unfold consumeBattery
  rw [hcat, if_pos rfl, jsOrNat_one_eq_max]
  by_cases hroll : b.usageAccumulator + 1 ≥ max b.totalQuantity 1
  · rw [if_pos hroll]
    exact ⟨by show b.quantity - 1 + 1 = b.quantity; omega, rfl,
      fun _ => ⟨rfl, rfl⟩, fun hlt => absurd hroll (by omega),
      rfl, rfl, rfl, rfl, rfl, rfl, rfl, rfl, rfl, rfl⟩
  · rw [if_neg hroll]
    exact ⟨by show b.quantity - 1 + 1 = b.quantity; omega, rfl,
      fun hge => absurd hge hroll, fun _ => ⟨rfl, rfl⟩,
      rfl, rfl, rfl, rfl, rfl, rfl, rfl, rfl, rfl, rfl⟩

/-- Witness for C1 on the spec scenario `{quantity 5, inUse 0, totalQuantity
5, usageAccumulator 4}`: consuming yields `quantity 4`, `inUse 1`,
`usageAccumulator 0` and `chargeCycles` incremented. -/
theorem useBattery_rechargeable_spec_witness :
    (consumeBattery sampleAkku).quantity + 1 = sampleAkku.quantity ∧
    (consumeBattery sampleAkku).inUse = sampleAkku.inUse + 1 ∧
    (consumeBattery sampleAkku).usageAccumulator = 0 ∧
    (consumeBattery sampleAkku).chargeCycles = sampleAkku.chargeCycles + 1 := by
  have h := useBattery_rechargeable_spec [sampleAkku] "a1" sampleAkku
    (by decide) (by decide) (by decide)
  exact ⟨h.2.1, h.2.2.1, (h.2.2.2.1 (by decide)).1, (h.2.2.2.1 (by decide)).2⟩

/-- C2: when the battery is absent or its quantity is `0` (i.e. `<= 0` on
counts), `useBattery` is a silent no-op: the whole list is unchanged. -/
theorem useBattery_noop_spec (l : List Battery) (id : String) :
    (l.find? (fun x => x.id == id) = none → useBattery l id = l) ∧
    (∀ b, l.find? (fun x => x.id == id) = some b → b.quantity ≤ 0 →
      useBattery l id = l) := by
  constructor
  · intro h
    unfold useBattery
    rw [h]
  · intro b hb hq
    unfold useBattery
    rw [hb]
    simp only []
    rw [if_pos hq]

/-- Witness for C2: consuming the out-of-stock PRIMARY battery leaves the
inventory unchanged. -/
theorem useBattery_noop_spec_witness :
    useBattery [emptyPrimary] "p0" = [emptyPrimary] :=
  (useBattery_noop_spec [emptyPrimary] "p0").2 emptyPrimary (by decide) (by decide)

/-- C5: `chargeBattery` (the state computed by `executeCharge`) leaves
`usageAccumulator` and `chargeCycles` exactly unchanged, for every battery
and every recharge call. -/
theorem chargeBattery_cycle_counters_frame (b : Battery) (amount : Nat)
    (now freshId : String) :
    (chargeBattery b amount now freshId).usageAccumulator = b.usageAccumulator ∧
    (chargeBattery b amount now freshId).chargeCycles = b.chargeCycles :=
  ⟨rfl, rfl⟩

/-- C10: after consuming a RECHARGEABLE battery with positive quantity, the
accumulator lies in `[0, max(totalQuantity, 1))`, whatever its starting
value. -/
theorem consume_accumulator_range (b : Battery)
    (hcat : b.category = BatteryCategory.RECHARGEABLE)
    (_hq : 0 < b.quantity) :
    0 ≤ (consumeBattery b).usageAccumulator ∧
    (consumeBattery b).usageAccumulator < max b.totalQuantity 1 := by
  unfold consumeBattery
  rw [hcat, if_pos rfl, jsOrNat_one_eq_max]
  by_cases hroll : b.usageAccumulator + 1 ≥ max b.totalQuantity 1
  · rw [if_pos hroll]
    exact ⟨Nat.zero_le _, by show (0 : Nat) < max b.totalQuantity 1; omega⟩
  · rw [if_neg hroll]
    exact ⟨Nat.zero_le _,
      by show b.usageAccumulator + 1 < max b.totalQuantity 1; omega⟩

/-- Witness for C10: a battery with an out-of-range accumulator (`100` with
`totalQuantity 5`) is brought back into range by a single consume. -/
theorem consume_accumulator_range_witness :
    0 ≤ (consumeBattery { sampleAkku with usageAccumulator := 100 }).usageAccumulator ∧
    (consumeBattery { sampleAkku with usageAccumulator := 100 }).usageAccumulator <
      max { sampleAkku with usageAccumulator := 100 }.totalQuantity 1 :=
  consume_accumulator_range { sampleAkku with usageAccumulator := 100 }
    (by decide) (by decide)

/-- C3 counterexample: on the PRIMARY battery `{quantity 2, totalQuantity 0}`
the code sets `totalQuantity` to `1` (the source falls back to `quantity`
when `totalQuantity` is `0`), while the claim predicts
`max(0, totalQuantity - 1) = 0`. -/
theorem usePrimary_totalQuantity_cex :
    primaryZeroTotal.category = BatteryCategory.PRIMARY ∧
    0 < primaryZeroTotal.quantity ∧
    (consumeBattery primaryZeroTotal).totalQuantity = 1 ∧
    ¬ ((consumeBattery primaryZeroTotal).totalQuantity =
        max 0 (primaryZeroTotal.totalQuantity - 1)) := by
  decide

/-- C3 amended: for every PRIMARY or BUTTON_CELL battery with `quantity > 0`,
`useBattery` stores a state with `quantity` decreased by 1 and
`totalQuantity` set to `max(0, t - 1)` where `t` is `totalQuantity` when
nonzero and the fallback `quantity` when `totalQuantity` is `0`. -/
theorem usePrimary_spec_amended (l : List Battery) (id : String) (b : Battery)
    (hfind : l.find? (fun x => x.id == id) = some b)
    (hcat : b.category = BatteryCategory.PRIMARY ∨
            b.category = BatteryCategory.BUTTON_CELL)
    (hq : 0 < b.quantity) :
    useBattery l id = saveToStorage l (consumeBattery b) ∧
    (consumeBattery b).quantity + 1 = b.quantity ∧
    (consumeBattery b).totalQuantity =
      (if b.totalQuantity = 0 then b.quantity else b.totalQuantity) - 1 := by
  have hne : ¬ (b.category = BatteryCategory.RECHARGEABLE) := by
    rcases hcat with h | h <;> rw [h] <;> intro hc <;> cases hc
  refine ⟨useBattery_found l id b hfind hq, ?_, ?_⟩
  · unfold consumeBattery
    rw [if_neg hne]
    show b.quantity - 1 + 1 = b.quantity
    omega
  · unfold consumeBattery
    rw [if_neg hne]
    show jsOrNat b.totalQuantity b.quantity - 1 = _
    unfold jsOrNat
    rfl

/-- Witness for the amended C3 on the spec scenario `{quantity 2,
totalQuantity 2}`: consuming yields `{quantity 1, totalQuantity 1}`. -/
theorem usePrimary_spec_amended_witness :
    useBattery [{ primaryZeroTotal with totalQuantity := 2 }] "p1" =
      saveToStorage [{ primaryZeroTotal with totalQuantity := 2 }]
        (consumeBattery { primaryZeroTotal with totalQuantity := 2 }) ∧
    (consumeBattery { primaryZeroTotal with totalQuantity := 2 }).quantity + 1 =
      { primaryZeroTotal with totalQuantity := 2 }.quantity ∧
    (consumeBattery { primaryZeroTotal with totalQuantity := 2 }).totalQuantity =
      (if { primaryZeroTotal with totalQuantity := 2 }.totalQuantity = 0 then
        { primaryZeroTotal with totalQuantity := 2 }.quantity
       else { primaryZeroTotal with totalQuantity := 2 }.totalQuantity) - 1 :=
  usePrimary_spec_amended [{ primaryZeroTotal with totalQuantity := 2 }] "p1"
    { primaryZeroTotal with totalQuantity := 2 }
    (by decide) (Or.inl (by decide)) (by decide)

/-- C4: `executeCharge` on a found battery moves `min(inUse, amount)` units
from `inUse` back to `quantity`, stamps `lastCharged` with `now`, and
prepends exactly one fresh `ChargingEvent` with `count = min(inUse, amount)`
to the head of the history; on an unknown id it is a no-op. -/
theorem executeCharge_spec (l : List Battery) (batteryId : String)
    (amount : Nat) (now freshId : String) :
    (l.find? (fun x => x.id == batteryId) = none →
      executeCharge l batteryId amount now freshId = l) ∧
    (∀ b, l.find? (fun x => x.id == batteryId) = some b →
      executeCharge l batteryId amount now freshId =
        saveToStorage l (chargeBattery b amount now freshId) ∧
      (chargeBattery b amount now freshId).quantity =
        b.quantity + min b.inUse amount ∧
      (chargeBattery b amount now freshId).inUse =
        b.inUse - min b.inUse amount ∧
      (chargeBattery b amount now freshId).lastCharged = some now ∧
      (chargeBattery b amount now freshId).chargingHistory =
        { id := freshId, date := now, count := min b.inUse amount } ::
          b.chargingHistory) := by
  constructor
  · intro h
    unfold executeCharge
    rw [h]
  · intro b hb
    refine ⟨?_, rfl, rfl, rfl, rfl⟩
    unfold executeCharge
    rw [hb]

/-- Witness for C4 on the spec scenario `{inUse 3}` with `amount 10`:
`moveAmount = 3`, `inUse` drops to `0`, one new history event with
`count 3`. -/
theorem executeCharge_spec_witness :
    executeCharge [sampleInUseAkku] "a2" 10 "2026-02-02T10:00:00Z" "e2" =
      saveToStorage [sampleInUseAkku]
        (chargeBattery sampleInUseAkku 10 "2026-02-02T10:00:00Z" "e2") ∧
    (chargeBattery sampleInUseAkku 10 "2026-02-02T10:00:00Z" "e2").quantity =
      sampleInUseAkku.quantity + min sampleInUseAkku.inUse 10 ∧
    (chargeBattery sampleInUseAkku 10 "2026-02-02T10:00:00Z" "e2").inUse =
      sampleInUseAkku.inUse - min sampleInUseAkku.inUse 10 ∧
    (chargeBattery sampleInUseAkku 10 "2026-02-02T10:00:00Z" "e2").lastCharged =
      some "2026-02-02T10:00:00Z" ∧
    (chargeBattery sampleInUseAkku 10 "2026-02-02T10:00:00Z" "e2").chargingHistory =
      { id := "e2", date := "2026-02-02T10:00:00Z",
        count := min sampleInUseAkku.inUse 10 } :: sampleInUseAkku.chargingHistory :=
  (executeCharge_spec [sampleInUseAkku] "a2" 10 "2026-02-02T10:00:00Z" "e2").2
    sampleInUseAkku (by decide)

/-- C6: `deleteHistoryEntry` on a found battery stores a state whose history
is exactly the old history with the events carrying the given id removed
(a sublist, so relative order is preserved), and every other field —
in particular `quantity`, `inUse`, `usageAccumulator`, `chargeCycles` — is
unchanged; on an unknown id it is a no-op. -/
theorem deleteHistoryEntry_spec (l : List Battery) (batteryId eventId : String) :
    (l.find? (fun x => x.id == batteryId) = none →
      deleteHistoryEntry l batteryId eventId = l) ∧
    (∀ b, l.find? (fun x => x.id == batteryId) = some b →
      ∃ c, deleteHistoryEntry l batteryId eventId = saveToStorage l c ∧
        c.chargingHistory =
          b.chargingHistory.filter (fun e => e.id != eventId) ∧
        (∀ e, e ∈ c.chargingHistory ↔ (e ∈ b.chargingHistory ∧ e.id ≠ eventId)) ∧
        List.Sublist c.chargingHistory b.chargingHistory ∧
        c.quantity = b.quantity ∧
        c.inUse = b.inUse ∧
        c.usageAccumulator = b.usageAccumulator ∧
        c.chargeCycles = b.chargeCycles ∧
        c.id = b.id ∧
        c.name = b.name ∧
        c.brand = b.brand ∧
        c.size = b.size ∧
        c.category = b.category ∧
        c.quantity = b.quantity ∧
        c.totalQuantity = b.totalQuantity ∧
        c.minQuantity = b.minQuantity ∧
        c.capacityMah = b.capacityMah ∧
        c.lastCharged = b.lastCharged) := by
  constructor
  · intro h
    unfold deleteHistoryEntry
    rw [h]
  · intro b hb
    refine ⟨{ b with chargingHistory :=
        b.chargingHistory.filter (fun e => e.id != eventId) },
      ?_, rfl, ?_, ?_, rfl, rfl, rfl, rfl, rfl, rfl, rfl, rfl, rfl, rfl, rfl,
      rfl, rfl, rfl⟩
    · unfold deleteHistoryEntry
      rw [hb]
    · intro e
      show e ∈ b.chargingHistory.filter (fun e => e.id != eventId) ↔ _
      simp [List.mem_filter]
    · exact List.filter_sublist b.chargingHistory

/-- Witness for C6: deleting event `e1` from the battery holding exactly that
event empties the ledger and leaves the counters alone. -/
theorem deleteHistoryEntry_spec_witness :
    ∃ c, deleteHistoryEntry [sampleInUseAkku] "a2" "e1" =
        saveToStorage [sampleInUseAkku] c ∧
      c.chargingHistory =
        sampleInUseAkku.chargingHistory.filter (fun e => e.id != "e1") ∧
      (∀ e, e ∈ c.chargingHistory ↔
        (e ∈ sampleInUseAkku.chargingHistory ∧ e.id ≠ "e1")) ∧
      List.Sublist c.chargingHistory sampleInUseAkku.chargingHistory ∧
      c.quantity = sampleInUseAkku.quantity ∧
      c.inUse = sampleInUseAkku.inUse ∧
      c.usageAccumulator = sampleInUseAkku.usageAccumulator ∧
      c.chargeCycles = sampleInUseAkku.chargeCycles ∧
      c.id = sampleInUseAkku.id ∧
      c.name = sampleInUseAkku.name ∧
      c.brand = sampleInUseAkku.brand ∧
      c.size = sampleInUseAkku.size ∧
      c.category = sampleInUseAkku.category ∧
      c.quantity = sampleInUseAkku.quantity ∧
      c.totalQuantity = sampleInUseAkku.totalQuantity ∧
      c.minQuantity = sampleInUseAkku.minQuantity ∧
      c.capacityMah = sampleInUseAkku.capacityMah ∧
      c.lastCharged = sampleInUseAkku.lastCharged :=
  (deleteHistoryEntry_spec [sampleInUseAkku] "a2" "e1").2 sampleInUseAkku
    (by decide)

/-- C9: recharging a found RECHARGEABLE battery whose `inUse` is `0` still
prepends a `ChargingEvent` with `count 0` and stamps `lastCharged`, while
`quantity` and `inUse` are unchanged. -/
theorem executeCharge_zero_inUse_spec (l : List Battery) (batteryId : String)
    (amount : Nat) (now freshId : String) (b : Battery)
    (hfind : l.find? (fun x => x.id == batteryId) = some b)
    (_hcat : b.category = BatteryCategory.RECHARGEABLE)
    (hinuse : b.inUse = 0) :
    executeCharge l batteryId amount now freshId =
      saveToStorage l (chargeBattery b amount now freshId) ∧
    (chargeBattery b amount now freshId).chargingHistory =
      { id := freshId, date := now, count := 0 } :: b.chargingHistory ∧
    (chargeBattery b amount now freshId).lastCharged = some now ∧
    (chargeBattery b amount now freshId).quantity = b.quantity ∧
    (chargeBattery b amount now freshId).inUse = b.inUse := by
  refine ⟨?_, ?_, rfl, ?_, ?_⟩
  · unfold executeCharge
    rw [hfind]
  · show ({ id := freshId, date := now, count := min b.inUse amount } :
      ChargingEvent) :: b.chargingHistory = _
    rw [hinuse]
    simp
  · show b.quantity + min b.inUse amount = b.quantity
    rw [hinuse]
    simp
  · show b.inUse - min b.inUse amount = b.inUse
    rw [hinuse]
    simp

/-- Witness for C9: recharging the fully-idle spec battery (`inUse 0`) logs a
`count 0` event and leaves the counts unchanged. -/
theorem executeCharge_zero_inUse_spec_witness :
    executeCharge [sampleAkku] "a1" 3 "2026-03-03T08:00:00Z" "e3" =
      saveToStorage [sampleAkku]
        (chargeBattery sampleAkku 3 "2026-03-03T08:00:00Z" "e3") ∧
    (chargeBattery sampleAkku 3 "2026-03-03T08:00:00Z" "e3").chargingHistory =
      { id := "e3", date := "2026-03-03T08:00:00Z", count := 0 } ::
        sampleAkku.chargingHistory ∧
    (chargeBattery sampleAkku 3 "2026-03-03T08:00:00Z" "e3").lastCharged =
      some "2026-03-03T08:00:00Z" ∧
    (chargeBattery sampleAkku 3 "2026-03-03T08:00:00Z" "e3").quantity =
      sampleAkku.quantity ∧
    (chargeBattery sampleAkku 3 "2026-03-03T08:00:00Z" "e3").inUse =
      sampleAkku.inUse :=
  executeCharge_zero_inUse_spec [sampleAkku] "a1" 3 "2026-03-03T08:00:00Z" "e3"
    sampleAkku (by decide) (by decide) (by decide)

/-- After `saveToStorage l b`, an entry with `b`'s id is present. -/
lemma saveToStorage_any (l : List Battery) (b : Battery) :
    (saveToStorage l b).any (fun x => x.id == b.id) = true := by
  unfold saveToStorage
  by_cases h : l.any (fun x => x.id == b.id) = true
  · rw [if_pos h]
    rcases List.any_eq_true.mp h with ⟨x, hx, hxid⟩
    refine List.any_eq_true.mpr ⟨b, ?_, by simp⟩
    refine List.mem_map.mpr ⟨x, hx, ?_⟩
    rw [if_pos hxid]
  · rw [if_neg h]
    refine List.any_eq_true.mpr ⟨b, ?_, by simp⟩
    simp

/-- Replaying the replace-by-id write of the same battery is the identity on
the already-written list. -/
lemma saveToStorage_idem (l : List Battery) (b : Battery) :
    saveToStorage (saveToStorage l b) b = saveToStorage l b := by
  have hany := saveToStorage_any l b
  unfold saveToStorage at hany ⊢
  by_cases h : l.any (fun x => x.id == b.id) = true
  · rw [if_pos h] at hany ⊢
    rw [if_pos hany, List.map_map]
    refine List.map_congr_left ?_
    intro a _
    show (if (if a.id == b.id then b else a).id == b.id then b
          else if a.id == b.id then b else a) = _
    by_cases ha : (a.id == b.id) = true
    · rw [if_pos ha]
      simp
    · rw [if_neg ha, if_neg ha]
  · rw [if_neg h] at hany ⊢
    rw [if_pos hany, List.map_append]
    have hl : l.map (fun x => if x.id == b.id then b else x) = l := by
      have hid : ∀ a ∈ l, (if a.id == b.id then b else a) = id a := by
        intro a ha
        have hf : ¬ ((a.id == b.id) = true) := by
          intro hc
          exact h (List.any_eq_true.mpr ⟨a, ha, hc⟩)
        rw [if_neg hf]
        rfl
      rw [List.map_congr_left hid, List.map_id]
    rw [hl]
    simp

/-- C7: the upsert is idempotent — replaying the same payload against the
`batteries` table (`REPLACE INTO` in `POST /api/batteries`) yields the same
final stored state, and likewise for the in-memory replace-by-id write
(`saveToStorage`). -/
theorem upsert_idempotent :
    (∀ (db : List BatteryRow) (p : PostPayload),
      postBattery (postBattery db p) p = postBattery db p) ∧
    (∀ (l : List Battery) (b : Battery),
      saveToStorage (saveToStorage l b) b = saveToStorage l b) := by
  constructor
  · intro db p
    unfold postBattery
    by_cases h : (strFalsy p.id || strFalsy p.name) = true
    · rw [if_pos h]
    · rw [if_neg h, if_neg h]
      unfold replaceInto
      rw [List.filter_append, filter_self_idem]
      simp
  · exact saveToStorage_idem

/-- C8 counterexample: the PRIMARY form submission with `quantity 0` builds a
battery with `quantity 0` but `totalQuantity 1` (the source computes
`Number(formBattery.quantity || 1)`), so `totalQuantity` does not equal
`quantity` at quantity `0`. -/
theorem buildBattery_totalQuantity_cex :
    zeroQuantityForm.category = some BatteryCategory.PRIMARY ∧
    (buildBattery zeroQuantityForm "fresh1" "2026-01-01T00:00:00Z").quantity = 0 ∧
    (buildBattery zeroQuantityForm "fresh1" "2026-01-01T00:00:00Z").totalQuantity = 1 ∧
    ¬ ((buildBattery zeroQuantityForm "fresh1" "2026-01-01T00:00:00Z").totalQuantity =
        (buildBattery zeroQuantityForm "fresh1" "2026-01-01T00:00:00Z").quantity) := by
  decide

/-- C8 amended: every battery built from a PRIMARY or BUTTON_CELL form has
`inUse = 0`, `capacityMah` and `lastCharged` cleared (`none`), `chargeCycles`
cleared (`0`), and `totalQuantity = max(quantity, 1)`: it equals `quantity`
whenever `quantity` is nonzero, but is `1` when `quantity` is `0` or
missing. -/
theorem buildBattery_nonrechargeable_spec (f : FormBattery)
    (freshId nowIso : String)
    (hcat : f.category = some BatteryCategory.PRIMARY ∨
            f.category = some BatteryCategory.BUTTON_CELL) :
    (buildBattery f freshId nowIso).inUse = 0 ∧
    (buildBattery f freshId nowIso).capacityMah = none ∧
    (buildBattery f freshId nowIso).chargeCycles = 0 ∧
    (buildBattery f freshId nowIso).lastCharged = none ∧
    (buildBattery f freshId nowIso).totalQuantity =
      max (buildBattery f freshId nowIso).quantity 1 := by
  have hne : ¬ (f.category = some BatteryCategory.RECHARGEABLE) := by
    rcases hcat with h | h <;> rw [h] <;> intro hc <;> cases hc
  unfold buildBattery
  simp only [if_neg hne]
  refine ⟨trivial, trivial, trivial, trivial, ?_⟩
  exact jsOrNat_one_eq_max _

/-- Witness for the amended C8: the `quantity 0` PRIMARY form builds a
battery with `inUse 0`, cleared rechargeable metadata, and
`totalQuantity = max(0, 1) = 1`. -/
theorem buildBattery_nonrechargeable_spec_witness :
    (buildBattery zeroQuantityForm "fresh1" "2026-01-01T00:00:00Z").inUse = 0 ∧
    (buildBattery zeroQuantityForm "fresh1" "2026-01-01T00:00:00Z").capacityMah = none ∧
    (buildBattery zeroQuantityForm "fresh1" "2026-01-01T00:00:00Z").chargeCycles = 0 ∧
    (buildBattery zeroQuantityForm "fresh1" "2026-01-01T00:00:00Z").lastCharged = none ∧
    (buildBattery zeroQuantityForm "fresh1" "2026-01-01T00:00:00Z").totalQuantity =
      max (buildBattery zeroQuantityForm "fresh1" "2026-01-01T00:00:00Z").quantity 1 :=
  buildBattery_nonrechargeable_spec zeroQuantityForm "fresh1"
    "2026-01-01T00:00:00Z" (Or.inl (by decide))

end PowerLog
